import Mathlib

/-!
Verification of the schema-driven test-data synthesis engine of the
test-data-generator repository: a shallow embedding of
`src/test_data_generator.py`, `src/api_spec_parser.py` and the prompt /
response-recovery logic of `src/ai_test_data_generator.py`, together with
theorems settling the specification claims about them.

Python values flowing through the generator (schemas, endpoint descriptors,
generated payloads) are JSON-compatible trees; we embed them as `Json`.
Python `dict`s are association lists in insertion order, mirroring the
insertion-ordered semantics of Python dictionaries that the source relies on
(iteration order of `content.items()` and `properties.items()`).

Randomness (`random.random`, `random.randint`, `random.choice`) and Faker
string fabrication are modelled by explicit streams inside `RandState`; each
primitive consumes one stream element and advances the corresponding cursor.

Fallible execution is modelled with `Option`: `none` stands for an abnormal
outcome of the Python code — an uncaught exception (`TypeError`,
`AttributeError`, `KeyError`, `ValueError` from `random.randint` with an
empty range) or non-termination of the unguarded `$ref` recursion (the
engine has no cycle protection).  Recursion is paid for by an explicit fuel
argument that decreases on every recursive step, so all definitions are
structural and kernel-reducible.
-/

/-- JSON-compatible values: the payloads, schema nodes and endpoint
descriptors of the engine.  Python `dict`s are insertion-ordered association
lists; Python distinguishes `int` from `float`, hence separate `int` and
`num` constructors. -/
inductive Json where
  | null
  | bool (b : Bool)
  | int (n : Int)
  | num (q : Rat)
  | str (s : String)
  | arr (xs : List Json)
  | obj (kvs : List (String × Json))

/-- Key lookup in an insertion-ordered association list (Python
`d[k]` / `k in d` on a `dict`). -/
def lookupKV : List (String × Json) → String → Option Json
  | [], _ => none
  | (k, v) :: rest, key => if k = key then some v else lookupKV rest key

/-- `j[k]` when `j` is a mapping; `none` otherwise. -/
def Json.lookup : Json → String → Option Json
  | .obj kvs, key => lookupKV kvs key
  | _, _ => none

/-- Python truthiness (`not schema`): `None`, `False`, `0`, `0.0`, `""`,
`[]` and an empty mapping are falsy; everything else is truthy. -/
def Json.isFalsy : Json → Bool
  | .null => true
  | .bool b => !b
  | .int n => n == 0
  | .num q => q == 0
  | .str s => s == ""
  | .arr xs => xs.isEmpty
  | .obj kvs => kvs.isEmpty

/-- `prop_name in required_props` where `required_props` is a Python list:
true iff some element is the string itself (equality of a string against a
non-string element is `False` in Python). -/
def containsStr (l : List Json) (p : String) : Bool :=
  l.any fun j => match j with
    | .str s => s == p
    | _ => false

/-- Coerce a JSON value to a Python `int` where the source hands it to
`random.randint`; non-integers make `randint` raise (abnormal). -/
def Json.asInt : Json → Option Int
  | .int n => some n
  | _ => none

/-! String helpers over character lists.  They model the Python string
methods the source calls (`upper`, `lower`, `startswith`, `endswith`,
`split`, `strip`, slicing) on the ASCII fragment those call sites handle;
list-level definitions keep every operation kernel-reducible. -/

/-- `str.upper()` (ASCII). -/
def strUpper (s : String) : String := ⟨s.toList.map Char.toUpper⟩

/-- `str.lower()` (ASCII). -/
def strLower (s : String) : String := ⟨s.toList.map Char.toLower⟩

/-- Does the second list start with the first? -/
def charsStart : List Char → List Char → Bool
  | [], _ => true
  | _ :: _, [] => false
  | p :: ps, c :: cs => p == c && charsStart ps cs

/-- `s.startswith(pre)`. -/
def strStarts (s pre : String) : Bool := charsStart pre.toList s.toList

/-- `s.endswith(suf)`. -/
def strEnds (s suf : String) : Bool := charsStart suf.toList.reverse s.toList.reverse

/-- `s.split(c)` on a single-character separator; never empty. -/
def splitChar (c : Char) : List Char → List (List Char)
  | [] => [[]]
  | x :: xs =>
    if x = c then [] :: splitChar c xs
    else
      match splitChar c xs with
      | g :: gs => (x :: g) :: gs
      | [] => [[x]]

/-- `ref_path.split('/')[-1]`, the trailing path segment of a reference. -/
def lastSegment (s : String) : String := ⟨(splitChar '/' s.toList).getLastD []⟩

/-- `s[:n]` (used for the `max_nb_chars` bound of `fake.text`). -/
def strTake (s : String) (n : Nat) : String := ⟨s.toList.take n⟩

/-- `s[a:-b]`, the slicing form used when stripping code fences. -/
def strSlice (s : String) (a b : Nat) : String :=
  ⟨((s.toList.drop a).reverse.drop b).reverse⟩

/-- The whitespace stripped by `str.strip()`. -/
def isPyWs (c : Char) : Bool :=
  c == ' ' || c == '\t' || c == '\n' || c == '\r' || c == '\x0b' || c == '\x0c'

/-- Drop leading Python whitespace. -/
def dropWsLead : List Char → List Char
  | [] => []
  | c :: cs => if isPyWs c then dropWsLead cs else c :: cs

/-- `s.strip()`. -/
def strTrim (s : String) : String :=
  ⟨(dropWsLead ((dropWsLead s.toList).reverse)).reverse⟩

/-- The streams backing `random.random`, `random.randint`/`random.choice`
and the Faker string fabricators, with one cursor per stream. -/
structure RandState where
  floats : Nat → Rat
  ints : Nat → Nat
  strs : Nat → String
  fpos : Nat
  ipos : Nat
  spos : Nat

/-- A float-stream tape is well formed when every draw lies in `[0, 1)`,
as `random.random()` guarantees. -/
def RandState.WF (s : RandState) : Prop :=
  ∀ n, 0 ≤ s.floats n ∧ s.floats n < 1

/-- `random.random()`: consume one float draw. -/
def RandState.nextFloat (s : RandState) : Rat × RandState :=
  (s.floats s.fpos, { s with fpos := s.fpos + 1 })

/-- `random.randint(a, b)`: uniform integer in `[a, b]`; raises
(`ValueError`, modelled `none`) when `a > b`.  The draw is taken from the
integer stream modulo the size of the range, so every value of `[a, b]` is
attainable by a suitable tape. -/
def RandState.randint (a b : Int) (s : RandState) : Option (Int × RandState) :=
  if a ≤ b then
    some (a + (s.ints s.ipos : Int) % (b - a + 1), { s with ipos := s.ipos + 1 })
  else none

/-- `random.choice(l)`: an element of `l` picked by the integer stream;
raises (modelled `none`) on an empty sequence. -/
def RandState.choice (l : List Json) (s : RandState) : Option (Json × RandState) :=
  if h : 0 < l.length then
    some (l.get ⟨s.ints s.ipos % l.length, Nat.mod_lt _ h⟩, { s with ipos := s.ipos + 1 })
  else none

/-- One Faker string fabrication (`fake.iso8601()`, `fake.email()`,
`fake.text(...)`, ...): consume one string draw.  The particular textual
distribution of each Faker helper is irrelevant to the engine's contract;
all are modelled as draws from the string stream. -/
def RandState.nextStr (s : RandState) : String × RandState :=
  (s.strs s.spos, { s with spos := s.spos + 1 })

/-- The recursion tasks of the synthesis engine: generate a value from a
schema node (`_generate_from_schema`), process the remaining property list
of an object node (the loop of `_generate_object`, carrying the raw
`required` value), or produce `n` more array elements (the comprehension of
`_generate_array`). -/
inductive GenTask where
  | schema (node : Json)
  | props (l : List (String × Json)) (req : Json)
  | items (itemSchema : Json) (n : Nat)

/-- `prop_name not in required_props` evaluated on the raw
`schema.get('required', [])` value: defined for Python lists; other
operand types (where Python `in` would do substring / key membership or
raise) are outside the modelled fragment and yield `none`. -/
def pyNotInRequired (p : String) (req : Json) : Option Bool :=
  match req with
  | .arr l => some (!containsStr l p)
  | _ => none

/-- The six `format` values that route `_generate_string` to a Faker
fabricator. -/
def isFakerFormat (t : String) : Bool :=
  t == "date-time" || t == "date" || t == "email" || t == "uuid" ||
  t == "uri" || t == "password"

/-- The core synthesis recursion, a faithful embedding of
`TestDataGenerator._generate_from_schema` / `_generate_object` /
`_generate_array` / `_generate_string` / `_generate_integer` /
`_generate_number` (src/test_data_generator.py lines 84-184), with the
schema registry `schemas` standing for `self.schemas`.  Fuel decreases on
every recursive step; `none` at fuel 0 models the unbounded `$ref`
recursion (no cycle guard in the source), and `none` elsewhere models an
uncaught Python exception as described in the file header. -/
def genRun (schemas : List (String × Json)) : Nat → GenTask → RandState → Option (Json × RandState)
  | 0, _, _ => none
  | f + 1, .schema node, st =>
    -- `if not schema: return {}`
    if node.isFalsy then some (.obj [], st)
    else
      match node with
      | .obj kvs =>
        -- `if '$ref' in schema:` (checked before the type dispatch)
        match lookupKV kvs "$ref" with
        | some refVal =>
          match refVal with
          | .str refPath =>
            if strStarts refPath "#/components/schemas/" then
              match lookupKV schemas (lastSegment refPath) with
              | some target => genRun schemas f (.schema target) st
              | none => some (.obj [], st)
            else some (.obj [], st)
          | _ => none  -- `ref_path.startswith` on a non-string: AttributeError
        | none =>
          -- `schema_type = schema.get('type', 'object')`, then dispatch
          match (lookupKV kvs "type").getD (.str "object") with
          | .str t =>
            if t = "object" then
              -- `_generate_object`
              match lookupKV kvs "properties" with
              | none => some (.obj [], st)  -- `'properties' not in schema`
              | some propsVal =>
                match propsVal with
                | .obj props =>
                  match genRun schemas f (.props props ((lookupKV kvs "required").getD (.arr []))) st with
                  | some (out, st') => some (out, st')
                  | none => none
                | _ => none  -- `.items()` on a non-mapping: AttributeError
            else if t = "array" then
              -- `_generate_array`
              match ((lookupKV kvs "minItems").getD (.int 1)).asInt,
                    ((lookupKV kvs "maxItems").getD (.int 3)).asInt with
              | some lo, some hi =>
                match st.randint lo hi with
                | some (n, st') =>
                  genRun schemas f (.items ((lookupKV kvs "items").getD (.obj [])) n.toNat) st'
                | none => none
              | _, _ => none
            else if t = "string" then
              -- `_generate_string`
              match (lookupKV kvs "format").getD (.str "") with
              | .str fmt =>
                if isFakerFormat fmt then
                  let (txt, st') := st.nextStr
                  some (.str txt, st')
                else
                  match lookupKV kvs "enum" with
                  | some enumVal =>
                    match enumVal with
                    | .arr choices =>
                      match st.choice choices with
                      | some (v, st') => some (v, st')
                      | none => none
                    | _ => none  -- `random.choice` on a non-sequence
                  | none =>
                    match ((lookupKV kvs "minLength").getD (.int 5)).asInt,
                          ((lookupKV kvs "maxLength").getD (.int 10)).asInt with
                    | some lo, some hi =>
                      match st.randint lo hi with
                      | some (len, st') =>
                        -- both the `pattern` branch and the default branch call
                        -- `fake.text(max_nb_chars=length)`
                        let (txt, st'') := st'.nextStr
                        some (.str (strTake txt len.toNat), st'')
                      | none => none
                    | _, _ => none
              | _ =>
                -- a non-string `format` fails every comparison and reaches the
                -- same enum / free-text tail
                match lookupKV kvs "enum" with
                | some enumVal =>
                  match enumVal with
                  | .arr choices =>
                    match st.choice choices with
                    | some (v, st') => some (v, st')
                    | none => none
                  | _ => none
                | none =>
                  match ((lookupKV kvs "minLength").getD (.int 5)).asInt,
                        ((lookupKV kvs "maxLength").getD (.int 10)).asInt with
                  | some lo, some hi =>
                    match st.randint lo hi with
                    | some (len, st') =>
                      let (txt, st'') := st'.nextStr
                      some (.str (strTake txt len.toNat), st'')
                    | none => none
                  | _, _ => none
            else if t = "integer" then
              -- `_generate_integer`
              match ((lookupKV kvs "minimum").getD (.int 0)).asInt,
                    ((lookupKV kvs "maximum").getD (.int 1000)).asInt with
              | some lo, some hi =>
                match st.randint lo hi with
                | some (v, st') => some (.int v, st')
                | none => none
              | _, _ => none
            else if t = "number" then
              -- `_generate_number`: `round(random.uniform(lo, hi), 2)`; the
              -- uniform draw is `lo + r * (hi - lo)` for a float draw `r`, and
              -- Python's banker's rounding on binary floats is modelled by
              -- rational rounding to two decimal places
              match (lookupKV kvs "minimum").getD (.num 0),
                    (lookupKV kvs "maximum").getD (.num 1000) with
              | .int lo, .int hi =>
                let (r, st') := st.nextFloat
                some (.num (round (((lo : Rat) + r * ((hi : Rat) - (lo : Rat))) * 100) / 100), st')
              | .int lo, .num hi =>
                let (r, st') := st.nextFloat
                some (.num (round (((lo : Rat) + r * (hi - (lo : Rat))) * 100) / 100), st')
              | .num lo, .int hi =>
                let (r, st') := st.nextFloat
                some (.num (round ((lo + r * ((hi : Rat) - lo)) * 100) / 100), st')
              | .num lo, .num hi =>
                let (r, st') := st.nextFloat
                some (.num (round ((lo + r * (hi - lo)) * 100) / 100), st')
              | _, _ => none  -- `random.uniform` on non-numeric bounds
            else if t = "boolean" then
              -- `random.choice([True, False])`
              match st.choice [.bool true, .bool false] with
              | some (v, st') => some (v, st')
              | none => none
            else
              some (.null, st)  -- unrecognised type: `return None`
          | _ => some (.null, st)  -- non-string `type` fails every dispatch test
      | _ => none  -- `.get` on a truthy non-mapping schema: AttributeError
  | f + 1, .props l req, st =>
    match l with
    | [] => some (.obj [], st)
    | (p, s) :: rest =>
      -- `if prop_name not in required_props and random.random() > 0.8: continue`
      match pyNotInRequired p req with
      | none => none
      | some notRequired =>
        if notRequired then
          let (r, st₁) := st.nextFloat
          if Rat.blt (mkRat 4 5) r then
            genRun schemas f (.props rest req) st₁
          else
            match genRun schemas f (.schema s) st₁ with
            | some (v, st₂) =>
              match genRun schemas f (.props rest req) st₂ with
              | some (.obj out, st₃) => some (.obj ((p, v) :: out), st₃)
              | _ => none
            | none => none
        else
          match genRun schemas f (.schema s) st with
          | some (v, st₂) =>
            match genRun schemas f (.props rest req) st₂ with
            | some (.obj out, st₃) => some (.obj ((p, v) :: out), st₃)
            | _ => none
          | none => none
  | f + 1, .items itemSchema n, st =>
    match n with
    | 0 => some (.arr [], st)
    | m + 1 =>
      match genRun schemas f (.schema itemSchema) st with
      | some (v, st') =>
        match genRun schemas f (.items itemSchema m) st' with
        | some (.arr vs, st'') => some (.arr (v :: vs), st'')
        | _ => none
      | none => none

/-- `TestDataGenerator._generate_from_schema` as the `.schema` task of the
fuelled recursion. -/
def generate_from_schema (schemas : List (String × Json)) (fuel : Nat)
    (node : Json) (st : RandState) : Option (Json × RandState) :=
  genRun schemas fuel (.schema node) st

/-- Python `d[k] = v` on a mapping: replace in place when the key exists,
append otherwise (insertion order preserved). -/
def setKey : List (String × Json) → String → Json → List (String × Json)
  | [], k, v => [(k, v)]
  | (k', v') :: rest, k, v =>
    if k' = k then (k, v) :: rest else (k', v') :: setKey rest k v

/-- The parameter loop of `_generate_request_data` (lines 50-55): for each
parameter located in query/path/header, synthesize a value from its schema
(`_generate_param_value`, line 186-189: `param.get('schema', {})`) and
store it under the parameter's name.  A parameter without an `in` or `name`
key raises `KeyError` (abnormal); a parameter whose `in` value is not one
of the three strings is skipped. -/
def genParamsData (schemas : List (String × Json)) (fuel : Nat) :
    List Json → List (String × Json) → RandState → Option (List (String × Json) × RandState)
  | [], acc, st => some (acc, st)
  | param :: rest, acc, st =>
    match param with
    | .obj pk =>
      match lookupKV pk "in" with
      | some inVal =>
        match inVal with
        | .str loc =>
          if loc = "query" ∨ loc = "path" ∨ loc = "header" then
            match lookupKV pk "name" with
            | some (.str nm) =>
              match genRun schemas fuel (.schema ((lookupKV pk "schema").getD (.obj []))) st with
              | some (v, st') => genParamsData schemas fuel rest (setKey acc nm v) st'
              | none => none
            | some _ => none  -- a non-string key is outside the modelled fragment
            | none => none  -- KeyError on `param['name']`
          else genParamsData schemas fuel rest acc st
        | _ => genParamsData schemas fuel rest acc st  -- non-string `in` matches none of the three
      | none => none  -- KeyError on `param['in']`
    | _ => none  -- subscripting a non-mapping parameter

/-- Synthesis from one content-type entry of a request body:
`content[ct].get('schema', {})` fed to `_generate_from_schema`. -/
def genFromContentEntry (schemas : List (String × Json)) (fuel : Nat)
    (entry : Json) (st : RandState) : Option (Json × RandState) :=
  match entry with
  | .obj o => genRun schemas fuel (.schema ((lookupKV o "schema").getD (.obj []))) st
  | _ => none  -- `.get` on a non-mapping content entry: AttributeError

/-- `TestDataGenerator._generate_request_data` (lines 33-55).  The request
body is consulted only under the key `requestBody` — present and truthy —
with `application/json` preferred and otherwise the first content entry in
insertion order; when no content entry applies, the parameter loop builds
an object keyed by parameter name. -/
def generate_request_data (schemas : List (String × Json)) (fuel : Nat)
    (endpoint : Json) (st : RandState) : Option (Json × RandState) :=
  let paramsPath : Option (Json × RandState) :=
    match (endpoint.lookup "parameters").getD (.arr []) with
    | .arr params =>
      match genParamsData schemas fuel params [] st with
      | some (kvs, st') => some (.obj kvs, st')
      | none => none
    | _ => none  -- iterating a non-list `parameters` value
  match endpoint.lookup "requestBody" with
  | some rb =>
    if rb.isFalsy then paramsPath
    else
      match rb with
      | .obj rbk =>
        match (lookupKV rbk "content").getD (.obj []) with
        | .obj content =>
          match lookupKV content "application/json" with
          | some entry => genFromContentEntry schemas fuel entry st
          | none =>
            match content with
            | firstEntry :: _ => genFromContentEntry schemas fuel firstEntry.2 st
            | [] => paramsPath  -- empty `content`: the for-loop never runs
        | _ => none  -- `.items()` on a non-mapping `content`
      | _ => none  -- `.get` on a truthy non-mapping request body
  | none => paramsPath

/-- `TestDataGenerator._generate_response_for_code` (lines 72-82): the
`application/json` schema of the response's `content`, else an empty
object. -/
def generate_response_for_code (schemas : List (String × Json)) (fuel : Nat)
    (responseDef : Json) (st : RandState) : Option (Json × RandState) :=
  match responseDef with
  | .obj rk =>
    match lookupKV rk "content" with
    | some contentVal =>
      match contentVal with
      | .obj content =>
        match lookupKV content "application/json" with
        | some entry =>
          match entry with
          | .obj o => genRun schemas fuel (.schema ((lookupKV o "schema").getD (.obj []))) st
          | _ => none
        | none => some (.obj [], st)
      | _ => none  -- membership test on a non-mapping `content`
    | none => some (.obj [], st)
  | _ => none  -- membership test on a non-mapping response definition

/-- `TestDataGenerator._generate_response_data` (lines 57-70): the `200`
response if declared, else `201`, else an empty object. -/
def generate_response_data (schemas : List (String × Json)) (fuel : Nat)
    (endpoint : Json) (st : RandState) : Option (Json × RandState) :=
  match (endpoint.lookup "responses").getD (.obj []) with
  | .obj responses =>
    match lookupKV responses "200" with
    | some r200 => generate_response_for_code schemas fuel r200 st
    | none =>
      match lookupKV responses "201" with
      | some r201 => generate_response_for_code schemas fuel r201 st
      | none => some (.obj [], st)
  | _ => none  -- membership test on a non-mapping `responses` value

/-- The loop condition of `generate_test_data_for_endpoint` (line 19):
`endpoint['path'] == endpoint_path and endpoint['method'] == method.upper()`
(Python equality of a non-string descriptor field against the requested
string is `False`). -/
def matchesEndpoint (path method : String) (e : Json) : Bool :=
  (match e.lookup "path" with
   | some (.str s) => s == path
   | _ => false) &&
  (match e.lookup "method" with
   | some (.str s) => s == strUpper method
   | _ => false)

/-- The endpoint lookup of `generate_test_data_for_endpoint` (lines 18-19):
first descriptor whose `path` equals the requested path and whose `method`
equals the upper-cased requested method. -/
def findEndpoint (endpoints : List Json) (path method : String) : Option Json :=
  endpoints.find? (matchesEndpoint path method)

/-- Abnormal outcomes of the random-generation entry point: the
endpoint-not-found `ValueError` (the spec's `NotFoundError`) carrying its
message, or any other abnormal outcome (`crash`) of the synthesis itself. -/
inductive GenError where
  | notFound (msg : String)
  | crash

/-- `TestDataGenerator.generate_test_data_for_endpoint` (lines 14-31):
look up the endpoint, build `{request, response}`, or raise
`ValueError(f"Endpoint not found: \x7bmethod.upper()\x7d \x7bendpoint_path\x7d")`. -/
def generate_test_data_for_endpoint (schemas : List (String × Json))
    (endpoints : List Json) (fuel : Nat) (path method : String)
    (st : RandState) : Except GenError (Json × RandState) :=
  match findEndpoint endpoints path method with
  | none => .error (.notFound ("Endpoint not found: " ++ strUpper method ++ " " ++ path))
  | some endpoint =>
    match generate_request_data schemas fuel endpoint st with
    | none => .error .crash
    | some (req, st₁) =>
      match generate_response_data schemas fuel endpoint st₁ with
      | none => .error .crash
      | some (resp, st₂) =>
        .ok (.obj [("request", req), ("response", resp)], st₂)

/-- The HTTP methods recognised by `ApiSpecParser.get_endpoints`. -/
def httpMethods : List String := ["get", "post", "put", "delete", "patch"]

/-- The descriptor built by `ApiSpecParser.get_endpoints` for one
`(method, operation)` pair of a path item (src/api_spec_parser.py lines
35-43).  Note the key `request_body`, not `requestBody`. -/
def makeEndpointDescriptor (path method : String) (op : List (String × Json)) : Json :=
  .obj [
    ("path", .str path),
    ("method", .str (strUpper method)),
    ("operation_id", (lookupKV op "operationId").getD .null),
    ("summary", (lookupKV op "summary").getD (.str "")),
    ("parameters", (lookupKV op "parameters").getD (.arr [])),
    ("request_body", (lookupKV op "requestBody").getD (.obj [])),
    ("responses", (lookupKV op "responses").getD (.obj []))]

/-- The inner loop of `get_endpoints` over one path item's operations. -/
def endpointsOfPathItem (path : String) : List (String × Json) → Option (List Json)
  | [] => some []
  | (method, op) :: rest =>
    if strLower method ∈ httpMethods then
      match op with
      | .obj opk =>
        match endpointsOfPathItem path rest with
        | some tail => some (makeEndpointDescriptor path method opk :: tail)
        | none => none
      | _ => none  -- `.get` on a non-mapping operation: AttributeError
    else endpointsOfPathItem path rest

/-- The outer loop of `get_endpoints` over `spec_data.get('paths', {})`. -/
def endpointsOfPaths : List (String × Json) → Option (List Json)
  | [] => some []
  | (path, pathItem) :: rest =>
    match pathItem with
    | .obj ops =>
      match endpointsOfPathItem path ops with
      | some here =>
        match endpointsOfPaths rest with
        | some tail => some (here ++ tail)
        | none => none
      | none => none
    | _ => none  -- `.items()` on a non-mapping path item

/-- `ApiSpecParser.get_endpoints` (lines 28-45). -/
def get_endpoints (specData : Json) : Option (List Json) :=
  match (specData.lookup "paths").getD (.obj []) with
  | .obj paths => endpointsOfPaths paths
  | _ => none

/-- `ApiSpecParser.get_schemas` (lines 47-50):
`spec_data.get('components', {}).get('schemas', {})`. -/
def get_schemas (specData : Json) : Option (List (String × Json)) :=
  match (specData.lookup "components").getD (.obj []) with
  | .obj comps =>
    match (lookupKV comps "schemas").getD (.obj []) with
    | .obj schemas => some schemas
    | _ => none  -- the registry is consumed as a mapping by the generator
  | _ => none

/-! ## A model of `json.loads`

The AI path parses raw completion text with Python's `json.loads`.  The
recursive-descent parser below follows the JSON grammar accepted by
`json.loads` (strict mode): optional surrounding whitespace, objects with
double-quoted keys, arrays, strings with the standard escapes, integers and
floating literals, `true`/`false`/`null`, and an error on anything else or
on trailing data.  `none` models `json.JSONDecodeError`. -/

/-- JSON whitespace (space, tab, newline, carriage return). -/
def skipWs : List Char → List Char
  | c :: cs => if c = ' ' ∨ c = '\t' ∨ c = '\n' ∨ c = '\r' then skipWs cs else c :: cs
  | [] => []

/-- Value of a hexadecimal digit. -/
def hexVal (c : Char) : Option Nat :=
  if '0' ≤ c ∧ c ≤ '9' then some (c.toNat - 48)
  else if 'a' ≤ c ∧ c ≤ 'f' then some (c.toNat - 87)
  else if 'A' ≤ c ∧ c ≤ 'F' then some (c.toNat - 55)
  else none

/-- JSON string body after the opening quote: standard escapes, `\uXXXX`
code units (surrogate pairing is not modelled; claims use none), and a
strict-mode error on raw control characters. -/
def parseJString : List Char → Option (String × List Char)
  | [] => none
  | c :: rest =>
    if c = '"' then some ("", rest)
    else if c = '\\' then
      match rest with
      | [] => none
      | e :: rest₂ =>
        if e = 'u' then
          match rest₂ with
          | h₁ :: h₂ :: h₃ :: h₄ :: rest₃ =>
            match hexVal h₁, hexVal h₂, hexVal h₃, hexVal h₄ with
            | some a, some b, some c', some d =>
              match parseJString rest₃ with
              | some (s, r) =>
                some (⟨Char.ofNat (((a * 16 + b) * 16 + c') * 16 + d) :: s.toList⟩, r)
              | none => none
            | _, _, _, _ => none
          | _ => none
        else
          match
            (if e = '"' then some '"'
             else if e = '\\' then some '\\'
             else if e = '/' then some '/'
             else if e = 'b' then some '\x08'
             else if e = 'f' then some '\x0c'
             else if e = 'n' then some '\n'
             else if e = 'r' then some '\r'
             else if e = 't' then some '\t'
             else none) with
          | some ch =>
            match parseJString rest₂ with
            | some (s, r) => some (⟨ch :: s.toList⟩, r)
            | none => none
          | none => none
    else if c.toNat < 32 then none  -- "Invalid control character"
    else
      match parseJString rest with
      | some (s, r) => some (⟨c :: s.toList⟩, r)
      | none => none

/-- Longest leading run of decimal digits. -/
def takeDigits : List Char → List Char × List Char
  | [] => ([], [])
  | c :: cs =>
    if c.isDigit then
      let (ds, r) := takeDigits cs
      (c :: ds, r)
    else ([], c :: cs)

/-- Numeric value of a digit string. -/
def digitsToNat (ds : List Char) : Nat :=
  ds.foldl (fun a c => a * 10 + (c.toNat - 48)) 0

/-- The integer part of a JSON number: `0`, or a nonzero digit followed by
digits (leading zeros are rejected, as in the `json` module's grammar). -/
def parseIntPart : List Char → Option (Nat × List Char)
  | [] => none
  | c :: cs =>
    if c = '0' then some (0, cs)
    else if c.isDigit then
      let (ds, r) := takeDigits cs
      some (digitsToNat (c :: ds), r)
    else none

/-- A JSON number literal: `-? int frac? exp?`; yields a Python `int` when
neither a fraction nor an exponent is present, and a float (exact rational
here) otherwise. -/
def parseNumber (cs : List Char) : Option (Json × List Char) :=
  let (neg, cs₁) :=
    match cs with
    | '-' :: r => (true, r)
    | _ => (false, cs)
  match parseIntPart cs₁ with
  | none => none
  | some (ip, cs₂) =>
    let fracPart : Option (Option (List Char) × List Char) :=
      match cs₂ with
      | '.' :: r =>
        let (ds, r') := takeDigits r
        if ds.isEmpty then none else some (some ds, r')
      | _ => some (none, cs₂)
    match fracPart with
    | none => none
    | some (frac, cs₃) =>
      let expPart : Option (Option (Bool × Nat) × List Char) :=
        match cs₃ with
        | e :: r =>
          if e = 'e' ∨ e = 'E' then
            let (esign, r₁) :=
              match r with
              | '-' :: r' => (true, r')
              | '+' :: r' => (false, r')
              | _ => (false, r)
            let (ds, r₂) := takeDigits r₁
            if ds.isEmpty then none else some (some (esign, digitsToNat ds), r₂)
          else some (none, e :: r)
        | [] => some (none, [])
      match expPart with
      | none => none
      | some (ex, cs₄) =>
        match frac, ex with
        | none, none =>
          some (.int (if neg then -(ip : Int) else (ip : Int)), cs₄)
        | _, _ =>
          let mantissa : Rat :=
            (ip : Rat) +
              (match frac with
               | some ds => (digitsToNat ds : Rat) / ((10 : Rat) ^ ds.length)
               | none => 0)
          let scaled : Rat :=
            match ex with
            | some (true, n) => mantissa / ((10 : Rat) ^ n)
            | some (false, n) => mantissa * ((10 : Rat) ^ n)
            | none => mantissa
          some (.num (if neg then -scaled else scaled), cs₄)

/-- Match a literal suffix (`rue`, `alse`, `ull`). -/
def expectChars : List Char → List Char → Option (List Char)
  | [], cs => some cs
  | e :: es, c :: cs => if c = e then expectChars es cs else none
  | _ :: _, [] => none

/-- The recursion tasks of the JSON parser: a value, the members of an
object after a `\x7b` (first member already known to start here), or the
elements of an array. -/
inductive PTask where
  | value
  | objItems
  | arrItems

/-- Python `dict(pairs)` as built by the JSON object decoder: last
duplicate wins, first position kept. -/
def dedupPairs (kvs : List (String × Json)) : List (String × Json) :=
  kvs.foldl (fun acc kv => setKey acc kv.1 kv.2) []

/-- The fuelled recursive-descent parser behind `json.loads`.  Each task is
entered with leading whitespace already consumed; fuel decreases on every
recursive step, and `parseJson` supplies enough fuel for any input. -/
def parseRun : Nat → PTask → List Char → Option (Json × List Char)
  | 0, _, _ => none
  | f + 1, .value, cs =>
    match cs with
    | [] => none
    | c :: rest =>
      if c = '\x7b' then
        match skipWs rest with
        | '\x7d' :: r => some (.obj [], r)
        | cs₁ =>
          match parseRun f .objItems cs₁ with
          | some (.obj kvs, r) => some (.obj (dedupPairs kvs), r)
          | _ => none
      else if c = '[' then
        match skipWs rest with
        | ']' :: r => some (.arr [], r)
        | cs₁ => parseRun f .arrItems cs₁
      else if c = '"' then
        match parseJString rest with
        | some (s, r) => some (.str s, r)
        | none => none
      else if c = 't' then
        match expectChars ['r', 'u', 'e'] rest with
        | some r => some (.bool true, r)
        | none => none
      else if c = 'f' then
        match expectChars ['a', 'l', 's', 'e'] rest with
        | some r => some (.bool false, r)
        | none => none
      else if c = 'n' then
        match expectChars ['u', 'l', 'l'] rest with
        | some r => some (.null, r)
        | none => none
      else if c = '-' ∨ c.isDigit then parseNumber (c :: rest)
      else none
  | f + 1, .objItems, cs =>
    match cs with
    | '"' :: rest =>
      match parseJString rest with
      | some (k, r₁) =>
        match skipWs r₁ with
        | ':' :: r₂ =>
          match parseRun f .value (skipWs r₂) with
          | some (v, r₃) =>
            match skipWs r₃ with
            | ',' :: r₄ =>
              match parseRun f .objItems (skipWs r₄) with
              | some (.obj kvs, r₅) => some (.obj ((k, v) :: kvs), r₅)
              | _ => none
            | '\x7d' :: r₄ => some (.obj [(k, v)], r₄)
            | _ => none
          | none => none
        | _ => none
      | none => none
    | _ => none  -- "Expecting property name enclosed in double quotes"
  | f + 1, .arrItems, cs =>
    match parseRun f .value cs with
    | some (v, r₁) =>
      match skipWs r₁ with
      | ',' :: r₂ =>
        match parseRun f .arrItems (skipWs r₂) with
        | some (.arr vs, r₃) => some (.arr (v :: vs), r₃)
        | _ => none
      | ']' :: r₂ => some (.arr [v], r₂)
      | _ => none
    | none => none

/-- `json.loads`: parse one value, allowing surrounding whitespace and
rejecting trailing data ("Extra data").  `none` is `JSONDecodeError`. -/
def parseJson (s : String) : Option Json :=
  let cs := skipWs s.toList
  match parseRun (cs.length + 1) .value cs with
  | some (v, rest) => if (skipWs rest).isEmpty then some v else none
  | none => none

/-! ## The AI response recovery of
`AiTestDataGenerator.generate_test_data_for_endpoint`
(src/ai_test_data_generator.py lines 133-166): parse the raw completion,
retry after whitespace- and fence-stripping, backfill missing top-level
keys, and otherwise fail. -/

/-- Abnormal outcomes of the recovery step: `malformed` is the terminal
`RuntimeError("Failed to parse AI response as JSON, even after cleaning.")`
(the spec's `MalformedResponseError`); `typeError` is the `TypeError`
raised when the missing-key backfill subscript-assigns into a parsed value
that is not a mapping. -/
inductive RecoverError where
  | malformed
  | typeError

/-- The missing-key backfill (lines 138-141 and 159-162):
`parsed_data['request'] = \x7b\x7d` / `parsed_data['response'] = \x7b\x7d` for
whichever key is absent.  Python appends a fresh key at the end of the
mapping; on a non-mapping the membership test or the subscript assignment
raises `TypeError` (`none`). -/
def backfillPayload : Json → Option Json
  | .obj kvs =>
    let kvs₁ := if (lookupKV kvs "request").isSome then kvs else kvs ++ [("request", .obj [])]
    let kvs₂ := if (lookupKV kvs₁ "response").isSome then kvs₁ else kvs₁ ++ [("response", .obj [])]
    some (.obj kvs₂)
  | _ => none

/-- The fence-stripping cleanup (lines 151-155) applied to the
already-stripped response: drop a leading language-tagged fence
(` ```json `) or bare fence together with the trailing fence, and strip
the remainder. -/
def stripFences (cleaned : String) : String :=
  if strStarts cleaned "```json" && strEnds cleaned "```" then
    strTrim (strSlice cleaned 7 3)
  else if strStarts cleaned "```" && strEnds cleaned "```" then
    strTrim (strSlice cleaned 3 3)
  else cleaned

/-- The recovery step on a raw completion text (lines 133-166): direct
parse; on failure strip whitespace and fences and parse again; backfill
the `request`/`response` keys of a successful parse; raise the terminal
error when both parses fail. -/
def recover (raw : String) : Except RecoverError Json :=
  match parseJson raw with
  | some parsed =>
    match backfillPayload parsed with
    | some payload => .ok payload
    | none => .error .typeError
  | none =>
    let cleaned := stripFences (strTrim raw)
    match parseJson cleaned with
    | some parsed =>
      match backfillPayload parsed with
      | some payload => .ok payload
      | none => .error .typeError
    | none => .error .malformed

/-! ## The AI prompt synthesizer `AiTestDataGenerator._create_prompt`
(src/ai_test_data_generator.py lines 168-211). -/

/-- `n` spaces. -/
def spacesN (n : Nat) : String := ⟨List.replicate n ' '⟩

/-- JSON string escaping as emitted by `json.dumps` (the `ensure_ascii`
escapes of other control and non-ASCII characters are not modelled; prompt
construction only needs a deterministic rendering). -/
def escapeJChar (c : Char) : List Char :=
  if c = '"' then ['\\', '"']
  else if c = '\\' then ['\\', '\\']
  else if c = '\n' then ['\\', 'n']
  else if c = '\t' then ['\\', 't']
  else if c = '\r' then ['\\', 'r']
  else if c = '\x08' then ['\\', 'b']
  else if c = '\x0c' then ['\\', 'f']
  else [c]

/-- A double-quoted, escaped JSON string literal. -/
def quoteJStr (s : String) : String :=
  ⟨'"' :: (s.toList.map escapeJChar).flatten ++ ['"']⟩

mutual

/-- `json.dumps(j, indent=2)` at a given enclosing indentation column.
(Python renders floats in decimal; the rational rendering here is a
deterministic approximation, which is all prompt construction relies on.) -/
def dumpVal (ind : Nat) : Json → String
  | .null => "null"
  | .bool true => "true"
  | .bool false => "false"
  | .int n => toString n
  | .num q => toString q
  | .str s => quoteJStr s
  | .arr [] => "[]"
  | .arr (x :: xs) =>
    "[\n" ++ dumpArr (ind + 2) (x :: xs) ++ "\n" ++ spacesN ind ++ "]"
  | .obj [] => "\x7b\x7d"
  | .obj (kv :: kvs) =>
    "\x7b\n" ++ dumpObj (ind + 2) (kv :: kvs) ++ "\n" ++ spacesN ind ++ "\x7d"

/-- The comma-and-newline separated renderings of array elements. -/
def dumpArr (ind : Nat) : List Json → String
  | [] => ""
  | x :: xs =>
    spacesN ind ++ dumpVal ind x ++
      (if xs.isEmpty then "" else ",\n" ++ dumpArr ind xs)

/-- The comma-and-newline separated renderings of object members. -/
def dumpObj (ind : Nat) : List (String × Json) → String
  | [] => ""
  | (k, v) :: kvs =>
    spacesN ind ++ quoteJStr k ++ ": " ++ dumpVal ind v ++
      (if kvs.isEmpty then "" else ",\n" ++ dumpObj ind kvs)

end

/-- `json.dumps(j, indent=2)`. -/
def jsonDumps (j : Json) : String := dumpVal 0 j

/-- The `str()` rendering used by the f-string interpolation of
`_create_prompt` for the path and method (strings render bare; descriptors
from `get_endpoints` always carry strings there). -/
def pyStr : Json → String
  | .str s => s
  | j => jsonDumps j

/-- The request-schema extraction of `_create_prompt` (lines 174-178):
the `application/json` request-body schema when the descriptor has a
truthy `requestBody`, the empty object otherwise. -/
def requestSchemaOf (e : Json) : Option Json :=
  match e.lookup "requestBody" with
  | some rb =>
    if rb.isFalsy then some (.obj [])
    else
      match rb with
      | .obj rbk =>
        match (lookupKV rbk "content").getD (.obj []) with
        | .obj content =>
          match lookupKV content "application/json" with
          | some entry =>
            match entry with
            | .obj o => some ((lookupKV o "schema").getD (.obj []))
            | _ => none  -- `.get` on a non-mapping content entry
          | none => some (.obj [])
        | _ => none  -- membership test on a non-mapping `content`
      | _ => none  -- `.get` on a truthy non-mapping request body
  | none => some (.obj [])

/-- The response-schema extraction of `_create_prompt` (lines 180-184):
the `200` response's `application/json` schema, else the empty object. -/
def responseSchemaOf (e : Json) : Option Json :=
  match (e.lookup "responses").getD (.obj []) with
  | .obj responses =>
    match lookupKV responses "200" with
    | some rd =>
      match rd with
      | .obj rdk =>
        match lookupKV rdk "content" with
        | some contentVal =>
          match contentVal with
          | .obj content =>
            match lookupKV content "application/json" with
            | some entry =>
              match entry with
              | .obj o => some ((lookupKV o "schema").getD (.obj []))
              | _ => none
            | none => some (.obj [])
          | _ => none  -- membership test on a non-mapping `content`
        | none => some (.obj [])
      | _ => none  -- membership test on a non-mapping response definition
    | none => some (.obj [])
  | _ => none  -- membership test on a non-mapping `responses`

/-- The fixed prompt template of `_create_prompt` (lines 191-210) with the
four interpolated holes. -/
def promptTemplate (pathS methodS reqS respS : String) : String :=
  "Generate realistic test data for the following API endpoint:\n\nEndpoint: "
    ++ pathS ++ "\nMethod: " ++ methodS ++ "\n\nRequest Schema:\n" ++ reqS
    ++ "\n\nResponse Schema:\n" ++ respS
    ++ "\n\nPlease create JSON test data with \x27request\x27 and \x27response\x27 properties that match these schemas.\nThe data should be realistic and contextually appropriate for this endpoint.\nOnly return valid JSON without any explanation or surrounding text.\nFormat:\n\x7b\n  \"request\": \x7b...\x7d,\n  \"response\": \x7b...\x7d\n\x7d\n"

/-- `AiTestDataGenerator._create_prompt` (lines 168-211): extract path,
method and the two schemas, pretty-print the schemas, and fill the fixed
template.  `none` models the `KeyError`/`AttributeError` cases of a
malformed descriptor. -/
def create_prompt (e : Json) : Option String :=
  match e.lookup "path", e.lookup "method" with
  | some pathV, some methodV =>
    match requestSchemaOf e with
    | some reqS =>
      match responseSchemaOf e with
      | some respS =>
        some (promptTemplate (pyStr pathV) (pyStr methodV) (jsonDumps reqS) (jsonDumps respS))
      | none => none
    | none => none
  | _, _ => none

/-! ## Theorems -/

set_option maxRecDepth 4000

/-- Association-list lookup distributes over append: the left list is
consulted first. -/
theorem lookupKV_append (l₁ l₂ : List (String × Json)) (k : String) :
    lookupKV (l₁ ++ l₂) k =
      match lookupKV l₁ k with
      | some v => some v
      | none => lookupKV l₂ k := by
  induction l₁ with
  | nil => simp [lookupKV]
  | cons kv rest ih =>
    obtain ⟨k', v'⟩ := kv
    by_cases h : k' = k
    · simp [lookupKV, h]
    · simp [lookupKV, h, ih]

/-- The backfill on a parsed mapping appends an empty-object entry for
each of `request` and `response` that is absent, in that order, and leaves
the existing entries untouched. -/
theorem backfillPayload_obj (kvs : List (String × Json)) :
    backfillPayload (.obj kvs) =
      some (.obj (kvs
        ++ (if (lookupKV kvs "request").isSome then [] else [("request", .obj [])])
        ++ (if (lookupKV kvs "response").isSome then [] else [("response", .obj [])]))) := by
  unfold backfillPayload
  by_cases hreq : (lookupKV kvs "request").isSome
  · by_cases hresp : (lookupKV kvs "response").isSome
    · simp [hreq, hresp]
    · simp [hreq, hresp]
  · have hlook : lookupKV (kvs ++ [("request", Json.obj [])]) "response"
        = lookupKV kvs "response" := by
      rw [lookupKV_append]
      cases lookupKV kvs "response" <;> simp [lookupKV]
    by_cases hresp : (lookupKV kvs "response").isSome
    · simp [hreq, hlook, hresp]
    · simp [hreq, hlook, hresp]

/-- C2: recovery first attempts a direct JSON parse of the raw completion;
on failure it strips whitespace and a leading language-tagged or bare code
fence together with the trailing fence and retries; when the retry also
fails it raises the terminal `MalformedResponseError` (the source's
`RuntimeError`), returning no default or empty payload — and the input
`"not json at all"` is such an input. -/
theorem claim_C2 :
    (∀ raw : String, parseJson raw = none →
      parseJson (stripFences (strTrim raw)) = none →
      recover raw = .error .malformed) ∧
    recover "not json at all" = .error .malformed := by
  constructor
  · intro raw h₁ h₂
    simp only [recover, h₁, h₂]
  · rfl

/-- C2 witness: the sample input indeed fails both parses, and the theorem
yields the terminal error on it. -/
theorem claim_C2_witness :
    parseJson "not json at all" = none ∧
    parseJson (stripFences (strTrim "not json at all")) = none ∧
    recover "not json at all" = .error .malformed :=
  ⟨rfl, rfl, claim_C2.1 "not json at all" rfl rfl⟩

/-- C7: whenever the direct parse — or, after it fails, the fence-stripped
parse — yields a mapping, recovery succeeds with that mapping extended by
an empty object under `request` and/or `response` for whichever of the two
keys is missing, all present entries kept unchanged; in particular the
fenced input recovers to the object with the missing `response` key
backfilled. -/
theorem claim_C7 :
    (∀ (raw : String) (kvs : List (String × Json)),
      (parseJson raw = some (.obj kvs) ∨
        (parseJson raw = none ∧ parseJson (stripFences (strTrim raw)) = some (.obj kvs))) →
      recover raw = .ok (.obj (kvs
        ++ (if (lookupKV kvs "request").isSome then [] else [("request", .obj [])])
        ++ (if (lookupKV kvs "response").isSome then [] else [("response", .obj [])])))) ∧
    recover "```json\n\x7b\"request\":\x7b\"x\":1\x7d\x7d\n```" =
      .ok (.obj [("request", .obj [("x", .int 1)]), ("response", .obj [])]) := by
  constructor
  · intro raw kvs h
    rcases h with h | ⟨h₁, h₂⟩
    · simp only [recover, h, backfillPayload_obj]
    · simp only [recover, h₁, h₂, backfillPayload_obj]
  · rfl

/-- C7 witness: the fenced example discharges the hypothesis — the direct
parse fails, the fence-stripped parse yields the mapping — and the theorem
computes the backfilled payload on it. -/
theorem claim_C7_witness :
    (parseJson "```json\n\x7b\"request\":\x7b\"x\":1\x7d\x7d\n```" = none ∧
      parseJson (stripFences (strTrim "```json\n\x7b\"request\":\x7b\"x\":1\x7d\x7d\n```")) =
        some (.obj [("request", .obj [("x", .int 1)])])) ∧
    recover "```json\n\x7b\"request\":\x7b\"x\":1\x7d\x7d\n```" =
      .ok (.obj ([("request", .obj [("x", .int 1)])]
        ++ (if (lookupKV [("request", .obj [("x", .int 1)])] "request").isSome then []
            else [("request", .obj [])])
        ++ (if (lookupKV [("request", .obj [("x", .int 1)])] "response").isSome then []
            else [("response", .obj [])]))) :=
  ⟨⟨rfl, rfl⟩,
    claim_C7.1 "```json\n\x7b\"request\":\x7b\"x\":1\x7d\x7d\n```"
      [("request", .obj [("x", .int 1)])] (.inr ⟨rfl, rfl⟩)⟩

/-- C10: a completion that parses to a non-mapping JSON value — the JSON
string `"hello"`, or an array — drives the missing-key backfill into
subscript-assignment on a non-mapping, a `TypeError` distinct from the
`MalformedResponseError` path and from any returned payload: recovery is
total only over inputs parsing to JSON objects. -/
theorem claim_C10 :
    parseJson "\"hello\"" = some (.str "hello") ∧
    recover "\"hello\"" = .error .typeError ∧
    recover "[1, 2]" = .error .typeError ∧
    RecoverError.typeError ≠ RecoverError.malformed :=
  ⟨rfl, rfl, rfl, by intro h; cases h⟩

/-- The loop condition holds exactly when the descriptor's `path` entry is
the requested path and its `method` entry is the upper-cased requested
method. -/
theorem matchesEndpoint_iff (path method : String) (e : Json) :
    matchesEndpoint path method e = true ↔
      e.lookup "path" = some (.str path) ∧
        e.lookup "method" = some (.str (strUpper method)) := by
  unfold matchesEndpoint
  cases hp : e.lookup "path" with
  | none => simp
  | some v =>
    cases v <;> simp only [Bool.false_and, Bool.and_eq_true, beq_iff_eq] <;>
      try simp
    cases hm : e.lookup "method" with
    | none => simp
    | some w => cases w <;> simp [beq_iff_eq]

/-- C3: when no descriptor in the list matches the requested path exactly
and the requested method case-insensitively (descriptor methods are stored
upper-cased by `get_endpoints`, so the comparison against the upper-cased
input realises the case-insensitive match), generation raises the
endpoint-not-found error, whose message spells out both the upper-cased
method and the path, and no payload is returned; when a matching
descriptor exists, that error is never raised. -/
theorem claim_C3 (schemas : List (String × Json)) (endpoints : List Json)
    (fuel : Nat) (path method : String) (st : RandState) :
    ((∀ e ∈ endpoints,
        ¬(e.lookup "path" = some (.str path) ∧
          e.lookup "method" = some (.str (strUpper method)))) →
      generate_test_data_for_endpoint schemas endpoints fuel path method st =
        .error (.notFound ("Endpoint not found: " ++ strUpper method ++ " " ++ path)) ∧
      ∃ pre mid, "Endpoint not found: " ++ strUpper method ++ " " ++ path =
        pre ++ strUpper method ++ (mid ++ path)) ∧
    ((∃ e ∈ endpoints,
        e.lookup "path" = some (.str path) ∧
          e.lookup "method" = some (.str (strUpper method))) →
      ∀ msg, generate_test_data_for_endpoint schemas endpoints fuel path method st ≠
        .error (.notFound msg)) := by
  constructor
  · intro h
    have hfind : findEndpoint endpoints path method = none := by
      unfold findEndpoint
      rw [List.find?_eq_none]
      intro e he
      intro hmatch
      exact h e he ((matchesEndpoint_iff path method e).mp hmatch)
    constructor
    · simp only [generate_test_data_for_endpoint, hfind]
    · exact ⟨"Endpoint not found: ", " ", by simp [String.append_assoc]⟩
  · rintro ⟨e, he, hmatch⟩ msg
    have hsome : (findEndpoint endpoints path method).isSome := by
      unfold findEndpoint
      rw [List.find?_isSome]
      exact ⟨e, he, (matchesEndpoint_iff path method e).mpr hmatch⟩
    obtain ⟨e', he'⟩ := Option.isSome_iff_exists.mp hsome
    simp only [generate_test_data_for_endpoint, he']
    cases hreq : generate_request_data schemas fuel e' st with
    | none => simp [hreq]
    | some p₁ =>
      obtain ⟨req, st₁⟩ := p₁
      cases hresp : generate_response_data schemas fuel e' st₁ with
      | none => simp [hreq, hresp]
      | some p₂ => obtain ⟨resp, st₂⟩ := p₂; simp [hreq, hresp]

/-- C3 witness: against a one-descriptor list, requesting the absent
endpoint `delete /gone` yields the not-found error naming `DELETE` and
`/gone`, while requesting the present `post /users` (lower-case method
input) never yields a not-found error. -/
theorem claim_C3_witness :
    generate_test_data_for_endpoint []
        [Json.obj [("path", Json.str "/users"), ("method", Json.str "POST")]]
        5 "/gone" "delete" ⟨fun _ => 0, fun _ => 0, fun _ => "w", 0, 0, 0⟩ =
      .error (.notFound ("Endpoint not found: " ++ strUpper "delete" ++ " " ++ "/gone")) ∧
    generate_test_data_for_endpoint []
        [Json.obj [("path", Json.str "/users"), ("method", Json.str "POST")]]
        5 "/users" "post" ⟨fun _ => 0, fun _ => 0, fun _ => "w", 0, 0, 0⟩ ≠
      .error (.notFound "Endpoint not found: POST /users") :=
  ⟨((claim_C3 [] _ 5 "/gone" "delete" _).1
      (by
        intro e he
        simp only [List.mem_singleton] at he
        subst he
        rintro ⟨h₁, h₂⟩
        simp [Json.lookup, lookupKV] at h₁)).1,
    (claim_C3 [] _ 5 "/users" "post" _).2
      ⟨Json.obj [("path", Json.str "/users"), ("method", Json.str "POST")],
        List.mem_singleton.mpr rfl, rfl, rfl⟩ "Endpoint not found: POST /users"⟩

/-- A concrete deterministic tape: zero float draws, zero integer draws,
the constant string draw `"w"`. -/
def tape0 : RandState := ⟨fun _ => 0, fun _ => 0, fun _ => "w", 0, 0, 0⟩

/-- An OpenAPI document declaring `POST /users` with an
`application/json` request body of schema `\x7btype: string\x7d`. -/
def c1Spec : Json :=
  .obj [("paths", .obj [("/users", .obj [("post", .obj [
    ("requestBody", .obj [("content", .obj [("application/json",
      .obj [("schema", .obj [("type", .str "string")])])])])])])])]

/-- The descriptor `get_endpoints` extracts from `c1Spec`: the request
body lands under the key `request_body`. -/
def c1Descriptor : Json :=
  .obj [("path", .str "/users"), ("method", .str "POST"),
    ("operation_id", .null), ("summary", .str ""), ("parameters", .arr []),
    ("request_body", .obj [("content", .obj [("application/json",
      .obj [("schema", .obj [("type", .str "string")])])])]),
    ("responses", .obj [])]

/-- C1: the claim fails on the code for descriptors produced by
`ApiSpecParser.get_endpoints`.  The parser stores the operation's request
body under the key `request_body` (src/api_spec_parser.py line 41) while
`_generate_request_data` consults the key `requestBody`
(src/test_data_generator.py line 36), so for a parser-produced descriptor
declaring a JSON request body the body branch never fires: the request is
assembled from the (empty) parameter list as `\x7b\x7d`, although direct
synthesis of the declared schema yields a string.  The evaluation below
exhibits the divergence on `POST /users`. -/
theorem claim_C1_key_mismatch :
    get_endpoints c1Spec = some [c1Descriptor] ∧
    c1Descriptor.lookup "request_body" =
      some (.obj [("content", .obj [("application/json",
        .obj [("schema", .obj [("type", .str "string")])])])]) ∧
    c1Descriptor.lookup "requestBody" = none ∧
    (generate_request_data [] 5 c1Descriptor tape0).map (fun x => x.1) =
      some (.obj []) ∧
    (generate_from_schema [] 5 (.obj [("type", .str "string")]) tape0).map (fun x => x.1) =
      some (.str "w") :=
  ⟨rfl, rfl, rfl, rfl, rfl⟩

/-- C9: the prompt of `_create_prompt` is a pure function of the
descriptor — determinism is the reflexivity of this embedding — and it
depends only on the four projections the claim names: the `path` entry,
the `method` entry, the `application/json` request-body schema (empty
object when absent), and the `200` response's `application/json` schema
(empty object when absent). -/
theorem claim_C9 (e₁ e₂ : Json)
    (hpath : e₁.lookup "path" = e₂.lookup "path")
    (hmethod : e₁.lookup "method" = e₂.lookup "method")
    (hreq : requestSchemaOf e₁ = requestSchemaOf e₂)
    (hresp : responseSchemaOf e₁ = responseSchemaOf e₂) :
    create_prompt e₁ = create_prompt e₂ := by
  unfold create_prompt
  rw [hpath, hmethod, hreq, hresp]

/-- C9 witness: two descriptors differing in their `summary` and in a
`201` response body produce character-identical prompts, because the four
projections agree. -/
theorem claim_C9_witness :
    create_prompt (.obj [("path", .str "/u"), ("method", .str "GET"),
        ("summary", .str "first")]) =
      create_prompt (.obj [("path", .str "/u"), ("method", .str "GET"),
        ("summary", .str "second"),
        ("responses", .obj [("201", .obj [("description", .str "created")])])]) :=
  claim_C9 _ _ rfl rfl rfl rfl

/-- C6: the synthesized response value is produced from the `200` response
definition when one is declared, else from the `201` definition, else it
is the empty object; the chosen response definition's `application/json`
schema is the one synthesized, and when `200` is declared the result is a
function of the `200` entry alone, so at most one status code's schema is
ever used even when both declare bodies. -/
theorem claim_C6 (schemas : List (String × Json)) (fuel : Nat) (e : Json)
    (st : RandState) (rkvs : List (String × Json))
    (hresp : (e.lookup "responses").getD (.obj []) = .obj rkvs) :
    (∀ r200, lookupKV rkvs "200" = some r200 →
      generate_response_data schemas fuel e st =
        generate_response_for_code schemas fuel r200 st) ∧
    (lookupKV rkvs "200" = none → ∀ r201, lookupKV rkvs "201" = some r201 →
      generate_response_data schemas fuel e st =
        generate_response_for_code schemas fuel r201 st) ∧
    (lookupKV rkvs "200" = none → lookupKV rkvs "201" = none →
      generate_response_data schemas fuel e st = some (.obj [], st)) ∧
    (∀ rdk ck cj, lookupKV rdk "content" = some (.obj ck) →
      lookupKV ck "application/json" = some (.obj cj) →
      generate_response_for_code schemas fuel (.obj rdk) st =
        genRun schemas fuel (.schema ((lookupKV cj "schema").getD (.obj []))) st) := by
  refine ⟨?_, ?_, ?_, ?_⟩
  · intro r200 h200
    unfold generate_response_data
    simp only [hresp, h200]
  · intro h200 r201 h201
    unfold generate_response_data
    simp only [hresp, h200, h201]
  · intro h200 h201
    unfold generate_response_data
    simp only [hresp, h200, h201]
  · intro rdk ck cj hck hcj
    unfold generate_response_for_code
    simp only [hck, hcj]

/-- An endpoint declaring both a `200` and a `201` response body:
`200` carries an integer schema, `201` a string schema. -/
def c6Endpoint : Json :=
  .obj [("responses", .obj [
    ("200", .obj [("content", .obj [("application/json",
      .obj [("schema", .obj [("type", .str "integer")])])])]),
    ("201", .obj [("content", .obj [("application/json",
      .obj [("schema", .obj [("type", .str "string")])])])])])]

/-- C6 witness: with both `200` and `201` bodies declared, the response is
generated from the `200` definition, and evaluating on the zero tape shows
the `200` integer schema (not the `201` string schema) was synthesized. -/
theorem claim_C6_witness :
    generate_response_data [] 3 c6Endpoint tape0 =
      generate_response_for_code [] 3
        (.obj [("content", .obj [("application/json",
          .obj [("schema", .obj [("type", .str "integer")])])])]) tape0 ∧
    (generate_response_data [] 3 c6Endpoint tape0).map (fun x => x.1) = some (.int 0) :=
  ⟨(claim_C6 [] 3 c6Endpoint tape0 _ rfl).1 _ rfl, rfl⟩

/-- `random.randint(a, b)` succeeds on a nonempty range and yields a value
inside it. -/
theorem randint_bounds (a b : Int) (h : a ≤ b) (s : RandState) :
    ∃ v s', s.randint a b = some (v, s') ∧ a ≤ v ∧ v ≤ b := by
  unfold RandState.randint
  rw [if_pos h]
  refine ⟨_, _, rfl, ?_, ?_⟩
  · have h1 : 0 ≤ (s.ints s.ipos : Int) % (b - a + 1) :=
      Int.emod_nonneg _ (by omega)
    omega
  · have h2 : (s.ints s.ipos : Int) % (b - a + 1) < b - a + 1 :=
      Int.emod_lt_of_pos _ (by omega)
    have h1 : 0 ≤ (s.ints s.ipos : Int) % (b - a + 1) :=
      Int.emod_nonneg _ (by omega)
    omega

/-- C8: on an integer-typed schema node whose bounds — the node's
`minimum` (default `0`) and `maximum` (default `1000`) — form a nonempty
range, synthesis always succeeds with an integer `v` satisfying
`lo ≤ v ≤ hi`, and both endpoints are attainable under suitable tapes; in
particular nothing is raised when the bounds are absent and the defaults
apply, as the witness shows. -/
theorem claim_C8 (schemas : List (String × Json)) (fuel : Nat)
    (kvs : List (String × Json)) (lo hi : Int)
    (href : lookupKV kvs "$ref" = none)
    (htype : (lookupKV kvs "type").getD (.str "object") = .str "integer")
    (hmin : ((lookupKV kvs "minimum").getD (.int 0)).asInt = some lo)
    (hmax : ((lookupKV kvs "maximum").getD (.int 1000)).asInt = some hi)
    (hle : lo ≤ hi) :
    (∀ st, ∃ v st', generate_from_schema schemas (fuel + 1) (.obj kvs) st =
      some (.int v, st') ∧ lo ≤ v ∧ v ≤ hi) ∧
    (∃ st st', generate_from_schema schemas (fuel + 1) (.obj kvs) st = some (.int lo, st')) ∧
    (∃ st st', generate_from_schema schemas (fuel + 1) (.obj kvs) st = some (.int hi, st')) := by
  have hne : kvs ≠ [] := by
    intro h
    subst h
    simp [lookupKV] at htype
  have hfalsy : (Json.obj kvs).isFalsy = false := by
    cases kvs with
    | nil => exact absurd rfl hne
    | cons kv rest => rfl
  refine ⟨?_, ?_, ?_⟩
  · intro st
    obtain ⟨v, st', hrand, hlo, hhi⟩ := randint_bounds lo hi hle st
    refine ⟨v, st', ?_, hlo, hhi⟩
    unfold generate_from_schema
    simp +decide [genRun, hfalsy, href, htype, hmin, hmax, hrand]
  · refine ⟨⟨fun _ => 0, fun _ => 0, fun _ => "", 0, 0, 0⟩,
      ⟨fun _ => 0, fun _ => 0, fun _ => "", 0, 1, 0⟩, ?_⟩
    have hrand : RandState.randint lo hi ⟨fun _ => 0, fun _ => 0, fun _ => "", 0, 0, 0⟩ =
        some (lo, ⟨fun _ => 0, fun _ => 0, fun _ => "", 0, 1, 0⟩) := by
      unfold RandState.randint
      rw [if_pos hle]
      simp
    unfold generate_from_schema
    simp +decide [genRun, hfalsy, href, htype, hmin, hmax, hrand]
  · refine ⟨⟨fun _ => 0, fun _ => (hi - lo).toNat, fun _ => "", 0, 0, 0⟩,
      ⟨fun _ => 0, fun _ => (hi - lo).toNat, fun _ => "", 0, 1, 0⟩, ?_⟩
    have hrand : RandState.randint lo hi ⟨fun _ => 0, fun _ => (hi - lo).toNat, fun _ => "", 0, 0, 0⟩ =
        some (hi, ⟨fun _ => 0, fun _ => (hi - lo).toNat, fun _ => "", 0, 1, 0⟩) := by
      unfold RandState.randint
      rw [if_pos hle]
      have hcast : (((hi - lo).toNat : Nat) : Int) = hi - lo := Int.toNat_of_nonneg (by omega)
      have hmod : (hi - lo) % (hi - lo + 1) = hi - lo :=
        Int.emod_eq_of_lt (by omega) (by omega)
      simp only [hcast, hmod]
      congr 1
      congr 1
      omega
    unfold generate_from_schema
    simp +decide [genRun, hfalsy, href, htype, hmin, hmax, hrand]

/-- C8 witness: the bare node `\x7btype: integer\x7d` — both bounds missing, so
the defaults `0` and `1000` apply — always synthesizes an integer in
`[0, 1000]` (evaluated here on the zero tape), raises nothing, and both
`0` and `1000` are attainable. -/
theorem claim_C8_witness :
    (∃ v st', generate_from_schema [] 1 (.obj [("type", .str "integer")]) tape0 =
      some (.int v, st') ∧ 0 ≤ v ∧ v ≤ 1000) ∧
    (∃ st st', generate_from_schema [] 1 (.obj [("type", .str "integer")]) st =
      some (.int 0, st')) ∧
    (∃ st st', generate_from_schema [] 1 (.obj [("type", .str "integer")]) st =
      some (.int 1000, st')) :=
  ⟨(claim_C8 [] 0 [("type", .str "integer")] 0 1000 rfl rfl rfl rfl (by decide)).1 tape0,
    (claim_C8 [] 0 [("type", .str "integer")] 0 1000 rfl rfl rfl rfl (by decide)).2.1,
    (claim_C8 [] 0 [("type", .str "integer")] 0 1000 rfl rfl rfl rfl (by decide)).2.2⟩

/-- C5: on a node carrying `$ref`, a reference of the registry form
`#/components/schemas/...` whose trailing segment is registered resolves
to the registered node and synthesis proceeds from it — a reference to
`Foo` with registry entry `Foo: \x7btype: string, enum: ["a","b"]\x7d`
synthesizes to `"a"` or `"b"` — while a reference of any other (string)
form, or one whose segment is absent from the registry, yields the empty
object without raising. -/
theorem claim_C5 (schemas : List (String × Json)) (fuel : Nat)
    (kvs : List (String × Json)) (st : RandState) (r : String)
    (href : lookupKV kvs "$ref" = some (.str r)) :
    (strStarts r "#/components/schemas/" = true → ∀ target,
      lookupKV schemas (lastSegment r) = some target →
      generate_from_schema schemas (fuel + 1) (.obj kvs) st =
        generate_from_schema schemas fuel target st) ∧
    (strStarts r "#/components/schemas/" = false →
      generate_from_schema schemas (fuel + 1) (.obj kvs) st = some (.obj [], st)) ∧
    (strStarts r "#/components/schemas/" = true →
      lookupKV schemas (lastSegment r) = none →
      generate_from_schema schemas (fuel + 1) (.obj kvs) st = some (.obj [], st)) ∧
    (∀ (st₂ : RandState) (f₂ : Nat), ∃ v st',
      generate_from_schema
        [("Foo", .obj [("type", .str "string"), ("enum", .arr [.str "a", .str "b"])])]
        (f₂ + 2) (.obj [("$ref", .str "#/components/schemas/Foo")]) st₂ =
          some (v, st') ∧ (v = .str "a" ∨ v = .str "b")) := by
  have hne : kvs ≠ [] := by
    intro h
    subst h
    simp [lookupKV] at href
  have hfalsy : (Json.obj kvs).isFalsy = false := by
    cases kvs with
    | nil => exact absurd rfl hne
    | cons kv rest => rfl
  refine ⟨?_, ?_, ?_, ?_⟩
  · intro hstart target htarget
    unfold generate_from_schema
    simp only [genRun, hfalsy, href, hstart, htarget]
    simp
  · intro hstart
    unfold generate_from_schema
    simp only [genRun, hfalsy, href, hstart]
    simp
  · intro hstart htarget
    unfold generate_from_schema
    simp only [genRun, hfalsy, href, hstart, htarget]
    simp
  · intro st₂ f₂
    refine ⟨[Json.str "a", Json.str "b"].get ⟨st₂.ints st₂.ipos % 2, Nat.mod_lt _ (by norm_num)⟩,
      { st₂ with ipos := st₂.ipos + 1 }, rfl, ?_⟩
    have hk : st₂.ints st₂.ipos % 2 = 0 ∨ st₂.ints st₂.ipos % 2 = 1 := by omega
    rcases hk with hk | hk <;> simp [hk]

/-- C5 witness: a registered reference resolves and synthesis proceeds
from the target; a non-registry-form reference and a dangling reference
both yield the empty object without raising; and the enum example
synthesizes to `"a"` or `"b"` on the zero tape. -/
theorem claim_C5_witness :
    (generate_from_schema [("Foo", .obj [("type", .str "integer")])] 2
        (.obj [("$ref", .str "#/components/schemas/Foo")]) tape0 =
      generate_from_schema [("Foo", .obj [("type", .str "integer")])] 1
        (.obj [("type", .str "integer")]) tape0) ∧
    generate_from_schema [] 1 (.obj [("$ref", .str "#/definitions/Bar")]) tape0 =
      some (.obj [], tape0) ∧
    generate_from_schema [] 1 (.obj [("$ref", .str "#/components/schemas/Missing")]) tape0 =
      some (.obj [], tape0) ∧
    (∃ v st', generate_from_schema
        [("Foo", .obj [("type", .str "string"), ("enum", .arr [.str "a", .str "b"])])]
        2 (.obj [("$ref", .str "#/components/schemas/Foo")]) tape0 =
          some (v, st') ∧ (v = .str "a" ∨ v = .str "b")) :=
  ⟨(claim_C5 [("Foo", .obj [("type", .str "integer")])] 1
      [("$ref", .str "#/components/schemas/Foo")] tape0
      "#/components/schemas/Foo" rfl).1 rfl (.obj [("type", .str "integer")]) rfl,
    (claim_C5 [] 0 [("$ref", .str "#/definitions/Bar")] tape0
      "#/definitions/Bar" rfl).2.1 rfl,
    (claim_C5 [] 0 [("$ref", .str "#/components/schemas/Missing")] tape0
      "#/components/schemas/Missing" rfl).2.2.1 rfl rfl,
    (claim_C5 [] 0 [("$ref", .str "#/components/schemas/Missing")] tape0
      "#/components/schemas/Missing" rfl).2.2.2 tape0 0⟩

/-- Running the property loop of `_generate_object` on a list of declared
properties always returns a mapping whose keys come from the declared
names, contains every declared property whose name the `required` list
holds, and whose every entry was produced by a recursive schema synthesis
of that property's schema. -/
theorem props_run_spec (schemas : List (String × Json)) :
    ∀ (l : List (String × Json)) (f : Nat) (reqL : List Json) (st : RandState)
      (x : Json) (st' : RandState),
      genRun schemas f (.props l (.arr reqL)) st = some (x, st') →
      ∃ out, x = .obj out ∧
        (∀ p, p ∈ out.map Prod.fst → p ∈ l.map Prod.fst) ∧
        (∀ p s, (p, s) ∈ l → containsStr reqL p = true → p ∈ out.map Prod.fst) ∧
        (∀ p v, (p, v) ∈ out → ∃ s g st₀ st₁, (p, s) ∈ l ∧
          genRun schemas g (.schema s) st₀ = some (v, st₁)) := by
  intro l
  induction l with
  | nil =>
    intro f reqL st x st' h
    cases f with
    | zero => simp [genRun] at h
    | succ g =>
      simp only [genRun] at h
      obtain ⟨hx, hst⟩ := Prod.mk.injEq .. ▸ Option.some.inj h
      refine ⟨[], hx.symm, ?_, ?_, ?_⟩ <;> simp
  | cons hd rest ih =>
    obtain ⟨p, s⟩ := hd
    intro f reqL st x st' h
    cases f with
    | zero => simp [genRun] at h
    | succ g =>
      simp only [genRun, pyNotInRequired] at h
      cases hreq : containsStr reqL p with
      | true =>
        rw [hreq] at h
        simp only [Bool.not_true, Bool.false_eq_true, if_false] at h
        cases hgen : genRun schemas g (.schema s) st with
        | none => simp [hgen] at h
        | some p₁ =>
          obtain ⟨v, st₂⟩ := p₁
          simp only [hgen] at h
          cases hrest : genRun schemas g (.props rest (.arr reqL)) st₂ with
          | none => simp [hrest] at h
          | some p₂ =>
            obtain ⟨y, st₃⟩ := p₂
            simp only [hrest] at h
            obtain ⟨out', hy, hsub, hreqm, hval⟩ :=
              ih g reqL st₂ y st₃ hrest
            subst hy
            simp only at h
            obtain ⟨hx, hst⟩ := Prod.mk.injEq .. ▸ Option.some.inj h
            subst hst
            refine ⟨(p, v) :: out', hx.symm, ?_, ?_, ?_⟩
            · intro q hq
              simp only [List.map_cons, List.mem_cons] at hq ⊢
              rcases hq with hq | hq
              · exact Or.inl hq
              · exact Or.inr (hsub q hq)
            · intro q s' hq hcont
              simp only [List.mem_cons] at hq
              rcases hq with hq | hq
              · obtain ⟨hq1, hq2⟩ := Prod.mk.injEq .. ▸ hq
                simp [hq1]
              · simp only [List.map_cons, List.mem_cons]
                exact Or.inr (hreqm q s' hq hcont)
            · intro q v' hq
              simp only [List.mem_cons] at hq
              rcases hq with hq | hq
              · obtain ⟨hq1, hq2⟩ := Prod.mk.injEq .. ▸ hq
                subst hq1; subst hq2
                exact ⟨s, g, st, st₂, List.mem_cons_self .., hgen⟩
              · obtain ⟨s', g', st₀, st₁, hmem, hg⟩ := hval q v' hq
                exact ⟨s', g', st₀, st₁, List.mem_cons_of_mem _ hmem, hg⟩
      | false =>
        rw [hreq] at h
        simp only [Bool.not_false, if_true, RandState.nextFloat] at h
        cases hblt : Rat.blt (mkRat 4 5) (st.floats st.fpos) with
        | true =>
          rw [hblt] at h
          simp only [if_true] at h
          obtain ⟨out', hy, hsub, hreqm, hval⟩ :=
            ih g reqL _ x st' h
          refine ⟨out', hy, ?_, ?_, ?_⟩
          · intro q hq
            simp only [List.map_cons, List.mem_cons]
            exact Or.inr (hsub q hq)
          · intro q s' hq hcont
            simp only [List.mem_cons] at hq
            rcases hq with hq | hq
            · obtain ⟨hq1, hq2⟩ := Prod.mk.injEq .. ▸ hq
              subst hq1
              rw [hreq] at hcont
              cases hcont
            · exact hreqm q s' hq hcont
          · intro q v' hq
            obtain ⟨s', g', st₀, st₁, hmem, hg⟩ := hval q v' hq
            exact ⟨s', g', st₀, st₁, List.mem_cons_of_mem _ hmem, hg⟩
        | false =>
          rw [hblt] at h
          simp only [Bool.false_eq_true, if_false] at h
          cases hgen : genRun schemas g (.schema s) { st with fpos := st.fpos + 1 } with
          | none => simp [hgen] at h
          | some p₁ =>
            obtain ⟨v, st₂⟩ := p₁
            simp only [hgen] at h
            cases hrest : genRun schemas g (.props rest (.arr reqL)) st₂ with
            | none => simp [hrest] at h
            | some p₂ =>
              obtain ⟨y, st₃⟩ := p₂
              simp only [hrest] at h
              obtain ⟨out', hy, hsub, hreqm, hval⟩ :=
                ih g reqL st₂ y st₃ hrest
              subst hy
              simp only at h
              obtain ⟨hx, hst⟩ := Prod.mk.injEq .. ▸ Option.some.inj h
              subst hst
              refine ⟨(p, v) :: out', hx.symm, ?_, ?_, ?_⟩
              · intro q hq
                simp only [List.map_cons, List.mem_cons] at hq ⊢
                rcases hq with hq | hq
                · exact Or.inl hq
                · exact Or.inr (hsub q hq)
              · intro q s' hq hcont
                simp only [List.mem_cons] at hq
                rcases hq with hq | hq
                · obtain ⟨hq1, hq2⟩ := Prod.mk.injEq .. ▸ hq
                  simp [hq1]
                · simp only [List.map_cons, List.mem_cons]
                  exact Or.inr (hreqm q s' hq hcont)
              · intro q v' hq
                simp only [List.mem_cons] at hq
                rcases hq with hq | hq
                · obtain ⟨hq1, hq2⟩ := Prod.mk.injEq .. ▸ hq
                  subst hq1; subst hq2
                  exact ⟨s, g, { st with fpos := st.fpos + 1 }, st₂, List.mem_cons_self .., hgen⟩
                · obtain ⟨s', g', st₀, st₁, hmem, hg⟩ := hval q v' hq
                  exact ⟨s', g', st₀, st₁, List.mem_cons_of_mem _ hmem, hg⟩

/-- Splitting the property loop at a list position: a successful run over
`l₁ ++ l₂` is a successful run over `l₁` followed by a successful run over
`l₂` from the intermediate state (at the fuel remaining there), and the
output is the concatenation of the two partial outputs. -/
theorem props_run_append (schemas : List (String × Json)) :
    ∀ (l₁ l₂ : List (String × Json)) (f : Nat) (reqL : List Json)
      (st : RandState) (x : Json) (st' : RandState),
      genRun schemas f (.props (l₁ ++ l₂) (.arr reqL)) st = some (x, st') →
      ∃ out₁ st₁ g out₂,
        genRun schemas f (.props l₁ (.arr reqL)) st = some (.obj out₁, st₁) ∧
        genRun schemas g (.props l₂ (.arr reqL)) st₁ = some (.obj out₂, st') ∧
        x = .obj (out₁ ++ out₂) ∧ g ≤ f := by
  intro l₁
  induction l₁ with
  | nil =>
    intro l₂ f reqL st x st' h
    cases f with
    | zero => simp [genRun] at h
    | succ g =>
      obtain ⟨out, hx, _, _, _⟩ := props_run_spec schemas _ _ _ _ _ _ h
      subst hx
      exact ⟨[], st, g + 1, out, by simp [genRun], h, by simp, le_refl _⟩
  | cons hd rest ih =>
    obtain ⟨p, s⟩ := hd
    intro l₂ f reqL st x st' h
    cases f with
    | zero => simp [genRun] at h
    | succ g =>
      simp only [List.cons_append] at h
      simp only [genRun, pyNotInRequired] at h
      cases hreq : containsStr reqL p with
      | true =>
        rw [hreq] at h
        simp only [Bool.not_true, Bool.false_eq_true, if_false] at h
        cases hgen : genRun schemas g (.schema s) st with
        | none => simp [hgen] at h
        | some p₁ =>
          obtain ⟨v, st₂⟩ := p₁
          simp only [hgen] at h
          cases hrest : genRun schemas g (.props (rest ++ l₂) (.arr reqL)) st₂ with
          | none => simp [hrest] at h
          | some p₂ =>
            obtain ⟨y, st₃⟩ := p₂
            simp only [hrest] at h
            obtain ⟨out₁, st₁, g', out₂, hpre, hsuf, hy, hgle⟩ :=
              ih l₂ g reqL st₂ y st₃ hrest
            subst hy
            simp only at h
            obtain ⟨hx, hst⟩ := Prod.mk.injEq .. ▸ Option.some.inj h
            subst hst
            refine ⟨(p, v) :: out₁, st₁, g', out₂, ?_, hsuf, by simp [hx.symm], Nat.le_succ_of_le hgle⟩
            simp only [genRun, pyNotInRequired, hreq, Bool.not_true, Bool.false_eq_true,
              if_false, hgen, hpre]
      | false =>
        rw [hreq] at h
        simp only [Bool.not_false, if_true, RandState.nextFloat] at h
        cases hblt : Rat.blt (mkRat 4 5) (st.floats st.fpos) with
        | true =>
          rw [hblt] at h
          simp only [if_true] at h
          obtain ⟨out₁, st₁, g', out₂, hpre, hsuf, hy, hgle⟩ :=
            ih l₂ g reqL _ x st' h
          refine ⟨out₁, st₁, g', out₂, ?_, hsuf, hy, Nat.le_succ_of_le hgle⟩
          simp only [genRun, pyNotInRequired, hreq, Bool.not_false, if_true,
            RandState.nextFloat, hblt, hpre]
        | false =>
          rw [hblt] at h
          simp only [Bool.false_eq_true, if_false] at h
          cases hgen : genRun schemas g (.schema s) { st with fpos := st.fpos + 1 } with
          | none => simp [hgen] at h
          | some p₁ =>
            obtain ⟨v, st₂⟩ := p₁
            simp only [hgen] at h
            cases hrest : genRun schemas g (.props (rest ++ l₂) (.arr reqL)) st₂ with
            | none => simp [hrest] at h
            | some p₂ =>
              obtain ⟨y, st₃⟩ := p₂
              simp only [hrest] at h
              obtain ⟨out₁, st₁, g', out₂, hpre, hsuf, hy, hgle⟩ :=
                ih l₂ g reqL st₂ y st₃ hrest
              subst hy
              simp only at h
              obtain ⟨hx, hst⟩ := Prod.mk.injEq .. ▸ Option.some.inj h
              subst hst
              refine ⟨(p, v) :: out₁, st₁, g', out₂, ?_, hsuf, by simp [hx.symm],
                Nat.le_succ_of_le hgle⟩
              simp only [genRun, pyNotInRequired, hreq, Bool.not_false, if_true,
                RandState.nextFloat, hblt, Bool.false_eq_true, if_false, hgen, hpre]

/-- The decision for the property at the head of the loop, when its name
is not in the `required` list: it is included in the output exactly when
the fresh `random.random()` draw is at most 0.8 (`mkRat 4 5`), the
`continue` branch firing on draws above 0.8. -/
theorem props_head_optional (schemas : List (String × Json)) (g : Nat) (p : String)
    (s : Json) (l₂ : List (String × Json)) (reqL : List Json) (st : RandState)
    (x : Json) (st' : RandState)
    (hreq : containsStr reqL p = false)
    (hnot : p ∉ l₂.map Prod.fst)
    (h : genRun schemas (g + 1) (.props ((p, s) :: l₂) (.arr reqL)) st = some (x, st')) :
    ∃ out, x = .obj out ∧
      (p ∈ out.map Prod.fst ↔ Rat.blt (mkRat 4 5) (st.floats st.fpos) = false) := by
  simp only [genRun, pyNotInRequired, hreq, Bool.not_false, if_true, RandState.nextFloat] at h
  cases hblt : Rat.blt (mkRat 4 5) (st.floats st.fpos) with
  | true =>
    rw [hblt] at h
    simp only [if_true] at h
    obtain ⟨out, hx, hsub, _, _⟩ := props_run_spec schemas l₂ g reqL _ x st' h
    refine ⟨out, hx, ?_, ?_⟩
    · intro hmem
      exact absurd (hsub p hmem) hnot
    · intro hfalse
      cases hfalse
  | false =>
    rw [hblt] at h
    simp only [Bool.false_eq_true, if_false] at h
    cases hgen : genRun schemas g (.schema s) { st with fpos := st.fpos + 1 } with
    | none => simp [hgen] at h
    | some p₁ =>
      obtain ⟨v, st₂⟩ := p₁
      simp only [hgen] at h
      cases hrest : genRun schemas g (.props l₂ (.arr reqL)) st₂ with
      | none => simp [hrest] at h
      | some p₂ =>
        obtain ⟨y, st₃⟩ := p₂
        simp only [hrest] at h
        obtain ⟨out', hy, _, _, _⟩ := props_run_spec schemas l₂ g reqL st₂ y st₃ hrest
        subst hy
        simp only at h
        obtain ⟨hx, hst⟩ := Prod.mk.injEq .. ▸ Option.some.inj h
        refine ⟨(p, v) :: out', hx.symm, ?_, fun _ => by simp⟩
        intro _
        rfl

/-- C4: on an object-typed (or untyped, hence object-defaulted) non-`$ref`
schema node: without a `properties` key synthesis yields the empty object
regardless of other fields; with declared properties, every successful
synthesis yields a mapping whose keys are among the declared names, in
which every declared property named by the node's `required` list is
present (on every call, for every tape), whose every entry is synthesized
recursively from that property's schema, and in which each declared
non-required property is present exactly when its own fresh uniform draw
is at most 0.8 — an independent per-property, per-call decision, giving
inclusion probability 0.8 under the uniform `[0, 1)` draw. -/
theorem claim_C4 (schemas : List (String × Json)) (fuel : Nat)
    (kvs : List (String × Json)) (st : RandState)
    (href : lookupKV kvs "$ref" = none)
    (htype : (lookupKV kvs "type").getD (.str "object") = .str "object") :
    (lookupKV kvs "properties" = none →
      generate_from_schema schemas (fuel + 1) (.obj kvs) st = some (.obj [], st)) ∧
    (∀ props reqL out st',
      lookupKV kvs "properties" = some (.obj props) →
      (lookupKV kvs "required").getD (.arr []) = .arr reqL →
      generate_from_schema schemas (fuel + 1) (.obj kvs) st = some (.obj out, st') →
      (∀ p, p ∈ out.map Prod.fst → p ∈ props.map Prod.fst) ∧
      (∀ p s, (p, s) ∈ props → containsStr reqL p = true → p ∈ out.map Prod.fst) ∧
      (∀ p v, (p, v) ∈ out → ∃ s g st₀ st₁, (p, s) ∈ props ∧
        genRun schemas g (.schema s) st₀ = some (v, st₁)) ∧
      (∀ l₁ p s l₂, props = l₁ ++ (p, s) :: l₂ →
        containsStr reqL p = false →
        p ∉ l₁.map Prod.fst → p ∉ l₂.map Prod.fst →
        ∃ out₁ st₁, genRun schemas fuel (.props l₁ (.arr reqL)) st = some (.obj out₁, st₁) ∧
          (p ∈ out.map Prod.fst ↔ Rat.blt (mkRat 4 5) (st₁.floats st₁.fpos) = false))) := by
  constructor
  · intro hnone
    by_cases hk : kvs = []
    · subst hk
      rfl
    · have hfalsy : (Json.obj kvs).isFalsy = false := by
        cases kvs with
        | nil => exact absurd rfl hk
        | cons a b => rfl
      unfold generate_from_schema
      simp +decide [genRun, hfalsy, href, htype, hnone]
  · intro props reqL out st' hprops hreqd h
    have hk : kvs ≠ [] := by
      intro hh
      subst hh
      simp [lookupKV] at hprops
    have hfalsy : (Json.obj kvs).isFalsy = false := by
      cases kvs with
      | nil => exact absurd rfl hk
      | cons a b => rfl
    unfold generate_from_schema at h
    simp +decide [genRun, hfalsy, href, htype, hprops, hreqd] at h
    cases hrun : genRun schemas fuel (.props props (.arr reqL)) st with
    | none =>
      rw [hrun] at h
      exact Option.noConfusion h
    | some pr =>
      obtain ⟨y, stY⟩ := pr
      rw [hrun] at h
      simp only at h
      obtain ⟨hy, hstY⟩ := Prod.mk.injEq .. ▸ Option.some.inj h
      subst hstY
      rw [hy] at hrun
      obtain ⟨outS, hxS, hsub, hreqm, hval⟩ :=
        props_run_spec schemas props fuel reqL st _ _ hrun
      injection hxS with he
      subst he
      refine ⟨hsub, hreqm, hval, ?_⟩
      intro l₁ p s l₂ hsplit hcreq hnl₁ hnl₂
      subst hsplit
      obtain ⟨out₁, st₁, g, out₂, hpre, hsuf, hobjeq, hgle⟩ :=
        props_run_append schemas l₁ ((p, s) :: l₂) fuel reqL st _ _ hrun
      injection hobjeq with he₂
      subst he₂
      cases g with
      | zero => simp [genRun] at hsuf
      | succ g' =>
        obtain ⟨out₂', hy₂, hiff⟩ :=
          props_head_optional schemas g' p s l₂ reqL st₁ _ _ hcreq hnl₂ hsuf
        injection hy₂ with he₃
        subst he₃
        obtain ⟨outP, hxP, hsubP, hreqP, hvalP⟩ :=
          props_run_spec schemas l₁ fuel reqL st _ _ hpre
        injection hxP with he₄
        subst he₄
        have hnotin : p ∉ out₁.map Prod.fst := fun hm => hnl₁ (hsubP p hm)
        refine ⟨out₁, st₁, hpre, ?_, ?_⟩
        · intro hmem
          simp only [List.map_append, List.mem_append] at hmem
          rcases hmem with hmem | hmem
          · exact absurd hmem hnotin
          · exact hiff.mp hmem
        · intro hf
          simp only [List.map_append, List.mem_append]
          exact Or.inr (hiff.mpr hf)

/-- The object schema of the C4 witness: required `name` (string),
optional `age` (integer). -/
def c4Schema : List (String × Json) :=
  [("type", .str "object"),
    ("properties", .obj [("name", .obj [("type", .str "string")]),
      ("age", .obj [("type", .str "integer")])]),
    ("required", .arr [.str "name"])]

/-- C4 witness: on the zero tape the synthesis succeeds with
`{name: "w", age: 0}`; the theorem instantiates to show the required
`name` is present, and that the optional `age` is present exactly when the
fresh draw after the `name` prefix is at most 0.8 (on this tape the draw
is 0, so `age` is included). -/
theorem claim_C4_witness :
    "name" ∈ [("name", Json.str "w"), ("age", Json.int 0)].map Prod.fst ∧
    (∃ out₁ st₁,
      genRun [] 9 (.props [("name", .obj [("type", .str "string")])] (.arr [.str "name"]))
          tape0 = some (.obj out₁, st₁) ∧
      ("age" ∈ [("name", Json.str "w"), ("age", Json.int 0)].map Prod.fst ↔
        Rat.blt (mkRat 4 5) (st₁.floats st₁.fpos) = false)) :=
  ⟨((claim_C4 [] 9 c4Schema tape0 rfl rfl).2
      [("name", .obj [("type", .str "string")]), ("age", .obj [("type", .str "integer")])]
      [.str "name"] [("name", Json.str "w"), ("age", Json.int 0)]
      ⟨fun _ => 0, fun _ => 0, fun _ => "w", 1, 2, 1⟩ rfl rfl rfl).2.1
      "name" (.obj [("type", .str "string")]) (List.mem_cons_self ..) rfl,
    ((claim_C4 [] 9 c4Schema tape0 rfl rfl).2
      [("name", .obj [("type", .str "string")]), ("age", .obj [("type", .str "integer")])]
      [.str "name"] [("name", Json.str "w"), ("age", Json.int 0)]
      ⟨fun _ => 0, fun _ => 0, fun _ => "w", 1, 2, 1⟩ rfl rfl rfl).2.2.2
      [("name", .obj [("type", .str "string")])] "age" (.obj [("type", .str "integer")]) []
      rfl rfl (by simp) (by simp)⟩
